import Mathlib

/-!
Verification of the blueosplayer device-control core.

The Go sources are shallowly embedded: every client operation is a pure
function of an explicit network oracle (`RestNet` / `SoapNet`) and returns,
next to its result, the ordered trace of HTTP requests it issued, so that
"issues no network call" is the statement `trace = []`.  Go `error` values
are `Except String` with the exact `fmt.Errorf` message texts.  The Go
standard-library pieces the code leans on (`strings.HasPrefix`,
`strings.Contains`, `html.EscapeString`, `strconv.Atoi`) are embedded as
executable functions on `String`/`Char` lists; `encoding/xml.Unmarshal` and
`regexp`-based parsing of response bodies are modelled as oracle parameters
(functions from the raw body to the parsed fields), since no claim depends
on the byte-level parse itself.  Whitespace inside Go's multi-line SOAP body
literals is dropped; request identity is carried by the action, service and
parameter values.
-/

/-- Model of Go `strings.HasPrefix s pre`. -/
def goHasPrefixB (s pre : String) : Bool :=
  pre.toList.isPrefixOf s.toList

/-- Is `needle` a contiguous infix of `hay`?  Executable helper for
`goContainsB`. -/
def charsInfixOf : List Char → List Char → Bool
  | needle, [] => needle.isEmpty
  | needle, c :: rest => needle.isPrefixOf (c :: rest) || charsInfixOf needle rest

/-- Model of Go `strings.Contains s sub`. -/
def goContainsB (s sub : String) : Bool :=
  charsInfixOf sub.toList s.toList

/-- Accumulate decimal digits; `none` on the first non-digit. -/
def digitsToNatAux : List Char → Nat → Option Nat
  | [], acc => some acc
  | c :: rest, acc =>
    if c.isDigit then digitsToNatAux rest (acc * 10 + (c.toNat - 48)) else none

/-- A non-empty all-digit run, or `none`. -/
def parseDigits (cs : List Char) : Option Nat :=
  if cs.isEmpty then none else digitsToNatAux cs 0

/-- Model of Go `strconv.Atoi`: optional sign then one or more decimal
digits (the int64 range check is dropped — no call site depends on it). -/
def goParseInt (s : String) : Option Int :=
  match s.toList with
  | [] => none
  | c :: rest =>
    if c = '-' then (parseDigits rest).map fun n => -(n : Int)
    else if c = '+' then (parseDigits rest).map fun n => (n : Int)
    else (parseDigits (c :: rest)).map fun n => (n : Int)

/-- Model of Go `strconv.Atoi` with the error ignored (the call sites do
`v, _ = strconv.Atoi(s)` and use the zero value on failure). -/
def goAtoi (s : String) : Int :=
  (goParseInt s).getD 0

/-- Model of Go `strings.Split` for a single-character separator
(structural, unlike `String.splitOn`, so that it evaluates in the kernel). -/
def splitCharsOn (sep : Char) : List Char → List (List Char)
  | [] => [[]]
  | c :: rest =>
    let r := splitCharsOn sep rest
    if c = sep then [] :: r
    else (c :: r.headD []) :: r.tail

/-- Model of Go `strings.ToLower` (ASCII case mapping, which covers every
pattern the code compares; structural so that it evaluates in the kernel). -/
def goToLower (s : String) : String :=
  String.mk (s.data.map Char.toLower)

/-- One character of Go `html.EscapeString`. -/
def htmlEscapeChar (c : Char) : String :=
  if c = '&' then "&amp;"
  else if c = Char.ofNat 39 then "&#39;"
  else if c = '<' then "&lt;"
  else if c = '>' then "&gt;"
  else if c = Char.ofNat 34 then "&#34;"
  else String.singleton c

/-- Model of Go `html.EscapeString`. -/
def htmlEscape (s : String) : String :=
  String.join (s.toList.map htmlEscapeChar)

/-- The two nested `strings.ReplaceAll` calls of `PlayPreset`
(`<` to `&lt;`, `>` to `&gt;`). -/
def escapeAngles (s : String) : String :=
  String.join (s.toList.map fun c =>
    if c = '<' then "&lt;" else if c = '>' then "&gt;" else String.singleton c)

/-! ### Shared data model (`Preset`, `Status`, `PlayerInfo`) -/

/-- Go `Preset` (XMLName dropped). -/
structure Preset where
  ID : Int
  Name : String
  URL : String
  Image : String
deriving Repr, DecidableEq, Inhabited

/-- Go `Status` (XMLName dropped). -/
structure Status where
  State : String
  Song : String
  Artist : String
  Album : String
  Volume : Int
deriving Repr, DecidableEq, Inhabited

/-- Go `DeviceType` constants. -/
inductive DeviceType where
  | bluos
  | sonos
deriving Repr, DecidableEq, Inhabited

/-- Go `PlayerInfo`; the Go field `Type` is spelled `DType` because `Type`
is a Lean keyword. -/
structure PlayerInfo where
  IP : String
  Name : String
  Brand : String
  Model : String
  DType : DeviceType
deriving Repr, DecidableEq, Inhabited

/-! ### REST (BluOS) client, from `bluos.go` -/

/-- Network oracle for the REST client: an endpoint is mapped to `none`
(transport error, including a body-read failure) or `some (status, body)`. -/
def RestNet : Type := String → Option (Nat × String)

/-- `BluesoundClient.makeRequest`: one GET; the trace is the issued endpoint. -/
def BluesoundClient.makeRequest (net : RestNet) (endpoint : String) :
    List String × Except String String :=
  ([endpoint],
    match net endpoint with
    | none => .error "request failed"
    | some (status, body) =>
      if status = 200 then .ok body
      else .error ("API returned status " ++ toString status))

/-- `BluesoundClient.SetVolume` (bluos.go lines 105-112). -/
def BluesoundClient.SetVolume (net : RestNet) (level : Int) :
    List String × Except String Unit :=
  if level < 0 ∨ level > 100 then
    ([], .error "volume must be between 0 and 100")
  else
    let r := BluesoundClient.makeRequest net ("/Volume?level=" ++ toString level)
    (r.1, r.2.map fun _ => ())

/-- `BluesoundClient.PlayPreset` (bluos.go lines 84-88): one GET, no
client-side validation of the id. -/
def BluesoundClient.PlayPreset (net : RestNet) (id : Int) :
    List String × Except String Unit :=
  let r := BluesoundClient.makeRequest net ("/Preset?id=" ++ toString id)
  (r.1, r.2.map fun _ => ())

/-- `BluesoundClient.AddSlave`. -/
def BluesoundClient.AddSlave (net : RestNet) (slaveIP : String) :
    List String × Except String Unit :=
  let r := BluesoundClient.makeRequest net ("/AddSlave?slave=" ++ slaveIP)
  (r.1, r.2.map fun _ => ())

/-- `BluesoundClient.GetPresets`; `xml.Unmarshal` of the `/Presets` document
is the oracle `parsePresets` (`none` = unmarshal error). -/
def BluesoundClient.GetPresets (net : RestNet)
    (parsePresets : String → Option (List Preset)) :
    List String × Except String (List Preset) :=
  let r := BluesoundClient.makeRequest net "/Presets"
  (r.1,
    match r.2 with
    | .error e => .error e
    | .ok data =>
      match parsePresets data with
      | none => .error "failed to parse presets XML"
      | some ps => .ok ps)

/-! ### SOAP (Sonos) client, from the Sonos client source (part_000) -/

/-- Go `SonosFavorite`. -/
structure SonosFavorite where
  ID : Int
  Name : String
  URI : String
  Meta : String
deriving Repr, DecidableEq, Inhabited

/-- A SOAP POST: the `SOAPAction` action name, the UPnP service and the
envelope body.  Both the `MediaRenderer` requests of `makeSoapRequest` and
the raw `client.Do` posts (`Browse` to the MediaServer path,
`SetAVTransportURI` in `PlayPreset`) are recorded in this shape. -/
structure SoapRequest where
  action : String
  service : String
  body : String
deriving Repr, DecidableEq, Inhabited

/-- Network oracle for the SOAP client. -/
def SoapNet : Type := SoapRequest → Option (Nat × String)

/-- `SonosClient.makeSoapRequest`: one POST; non-200 yields the Go error
text, a transport error yields `"SOAP request failed"`. -/
def SonosClient.makeSoapRequest (net : SoapNet) (action service body : String) :
    List SoapRequest × Except String String :=
  let req : SoapRequest := ⟨action, service, body⟩
  ([req],
    match net req with
    | none => .error "SOAP request failed"
    | some (status, respBody) =>
      if status = 200 then .ok respBody
      else .error ("SOAP request failed with status " ++ toString status ++ ": " ++ respBody))

/-- `_, err := makeSoapRequest(...)`: drop the body, keep trace and error. -/
def soapUnit (r : List SoapRequest × Except String String) :
    List SoapRequest × Except String Unit :=
  (r.1, r.2.map fun _ => ())

/-- Body of the `GetTransportInfo` call. -/
def transportInfoBody : String :=
  "<u:GetTransportInfo xmlns:u=\"urn:schemas-upnp-org:service:AVTransport:1\"><InstanceID>0</InstanceID></u:GetTransportInfo>"

/-- Body of the `GetPositionInfo` call. -/
def positionInfoBody : String :=
  "<u:GetPositionInfo xmlns:u=\"urn:schemas-upnp-org:service:AVTransport:1\"><InstanceID>0</InstanceID></u:GetPositionInfo>"

/-- Body of the `GetVolume` call. -/
def getVolumeBody : String :=
  "<u:GetVolume xmlns:u=\"urn:schemas-upnp-org:service:RenderingControl:1\"><InstanceID>0</InstanceID><Channel>Master</Channel></u:GetVolume>"

/-- Body of the `Play` call. -/
def playBody : String :=
  "<u:Play xmlns:u=\"urn:schemas-upnp-org:service:AVTransport:1\"><InstanceID>0</InstanceID><Speed>1</Speed></u:Play>"

/-- Body of the `RemoveAllTracksFromQueue` call. -/
def clearQueueBody : String :=
  "<u:RemoveAllTracksFromQueue xmlns:u=\"urn:schemas-upnp-org:service:AVTransport:1\"><InstanceID>0</InstanceID></u:RemoveAllTracksFromQueue>"

/-- Body of the `SetPlayMode` call (mode `NORMAL`). -/
def setPlayModeBody : String :=
  "<u:SetPlayMode xmlns:u=\"urn:schemas-upnp-org:service:AVTransport:1\"><InstanceID>0</InstanceID><NewPlayMode>NORMAL</NewPlayMode></u:SetPlayMode>"

/-- Body of the `Seek` call (queue track 1). -/
def seekBody : String :=
  "<u:Seek xmlns:u=\"urn:schemas-upnp-org:service:AVTransport:1\"><InstanceID>0</InstanceID><Unit>TRACK_NR</Unit><Target>1</Target></u:Seek>"

/-- Body of the Sonos `SetVolume` call. -/
def sonosSetVolumeBody (level : Int) : String :=
  "<u:SetVolume xmlns:u=\"urn:schemas-upnp-org:service:RenderingControl:1\"><InstanceID>0</InstanceID><Channel>Master</Channel><DesiredVolume>" ++ toString level ++ "</DesiredVolume></u:SetVolume>"

/-- Body of the `Browse` call of `browseForRadioContent`. -/
def browseBody (objectID : String) : String :=
  "<u:Browse xmlns:u=\"urn:schemas-upnp-org:service:ContentDirectory:1\"><ObjectID>" ++ objectID ++ "</ObjectID><BrowseFlag>BrowseDirectChildren</BrowseFlag><Filter>*</Filter><StartingIndex>0</StartingIndex><RequestedCount>100</RequestedCount><SortCriteria></SortCriteria></u:Browse>"

/-- `SonosClient.Play`. -/
def SonosClient.Play (net : SoapNet) : List SoapRequest × Except String Unit :=
  soapUnit (SonosClient.makeSoapRequest net "Play" "AVTransport" playBody)

/-- `SonosClient.SetVolume` (part_000 lines 596-609). -/
def SonosClient.SetVolume (net : SoapNet) (level : Int) :
    List SoapRequest × Except String Unit :=
  if level < 0 ∨ level > 100 then
    ([], .error "volume must be between 0 and 100")
  else
    soapUnit (SonosClient.makeSoapRequest net "SetVolume" "RenderingControl"
      (sonosSetVolumeBody level))

/-- `SonosClient.AddSlave` (part_000 lines 629-632): unconditional error,
no request. -/
def SonosClient.AddSlave (_net : SoapNet) (_slaveIP : String) :
    List SoapRequest × Except String Unit :=
  ([], .error "Sonos grouping not yet implemented")

/-- `SonosClient.RemoveSlave`. -/
def SonosClient.RemoveSlave (_net : SoapNet) (_slaveIP : String) :
    List SoapRequest × Except String Unit :=
  ([], .error "Sonos grouping not yet implemented")

/-- `SonosClient.RemoveAllSlaves`. -/
def SonosClient.RemoveAllSlaves (_net : SoapNet) :
    List SoapRequest × Except String Unit :=
  ([], .error "Sonos grouping not yet implemented")

/-- `SonosClient.LeaveGroup`. -/
def SonosClient.LeaveGroup (_net : SoapNet) :
    List SoapRequest × Except String Unit :=
  ([], .error "Sonos grouping not yet implemented")

/-! ### Radio classification and favorites browsing (part_000) -/

/-- The URI-scheme allowlist of `isRadioStation`. -/
def radioPatterns : List String :=
  ["x-sonosapi-stream:", "x-sonosapi-radio:", "x-rincon-mp3radio:",
   "http://", "https://", "mms://", "rtsp://", "x-sonos-http:"]

/-- The name keywords of `isRadioStation` (checked case-insensitively). -/
def radioNamePatterns : List String :=
  ["Radio", "FM", "AM", "Stream", "Live"]

/-- `SonosClient.isRadioStation` (part_000 lines 219-262). -/
def SonosClient.isRadioStation (fav : SonosFavorite) : Bool :=
  if radioPatterns.any (fun pattern => goHasPrefixB fav.URI pattern) then
    true
  else if goContainsB fav.Meta "object.item.audioItem.audioBroadcast"
      || goContainsB fav.Meta "object.item.audioItem.radio"
      || goContainsB fav.Meta "radioBroadcast" then
    true
  else
    let nameLower := goToLower fav.Name
    radioNamePatterns.any (fun pattern => goContainsB nameLower (goToLower pattern))

/-- The `Browse` POST of `browseForRadioContent` (a raw `client.Do` to the
`MediaServer/ContentDirectory/Control` path). -/
def browseRequest (objectID : String) : SoapRequest :=
  ⟨"Browse", "ContentDirectory", browseBody objectID⟩

/-- `SonosClient.browseForRadioContent`; the regex parse of the response
(`parseFavoritesFromResponse`) is the oracle `parseFavs`.  All failure modes
(request creation, transport, non-200, body read) yield the empty list. -/
def SonosClient.browseForRadioContent (parseFavs : String → List SonosFavorite)
    (net : SoapNet) (objectID : String) : List SoapRequest × List SonosFavorite :=
  let req := browseRequest objectID
  ([req],
    match net req with
    | none => []
    | some (status, data) => if status = 200 then parseFavs data else [])

/-- The five content-hierarchy roots tried by `browseSonosRadioStations`. -/
def radioObjectIDs : List (String × String) :=
  [("R:0/0", "Sonos Radio"), ("R:0/1", "Radio Stations"), ("FV:2", "Favorites"),
   ("A:RADIO", "Radio"), ("SQ:", "Sonos Favorites")]

/-- The inner loop body of `browseSonosRadioStations`: keep `fav` when it is
a radio station and no accumulated favorite shares its URI or its name. -/
def addRadioFavorite (acc : List SonosFavorite) (fav : SonosFavorite) :
    List SonosFavorite :=
  if SonosClient.isRadioStation fav then
    if acc.any (fun existing => existing.URI == fav.URI || existing.Name == fav.Name) then
      acc
    else
      acc ++ [fav]
  else
    acc

/-- The double loop of `browseSonosRadioStations` over the per-root browse
results. -/
def collectRadioFavorites (favLists : List (List SonosFavorite)) :
    List SonosFavorite :=
  favLists.foldl (fun acc favorites => favorites.foldl addRadioFavorite acc) []

/-- The re-numbering loop `for i := range l { l[i].ID = i + 1 }`. -/
def renumberFrom : Nat → List SonosFavorite → List SonosFavorite
  | _, [] => []
  | n, fav :: rest => { fav with ID := (n : Int) + 1 } :: renumberFrom (n + 1) rest

/-- `SonosClient.browseSonosRadioStations` (part_000 lines 131-173): browse
all five roots, filter to radio stations, drop URI- or name-duplicates,
re-number the survivors. -/
def SonosClient.browseSonosRadioStations (parseFavs : String → List SonosFavorite)
    (net : SoapNet) : List SoapRequest × List SonosFavorite :=
  let results := radioObjectIDs.map fun obj =>
    SonosClient.browseForRadioContent parseFavs net obj.1
  ((results.map Prod.fst).flatten,
    renumberFrom 0 (collectRadioFavorites (results.map Prod.snd)))

/-- `SonosClient.loadFavorites` (part_000 lines 106-129): no-op when the
cache is non-empty; otherwise browse, and fall back to the two `[INFO]`
placeholder entries when nothing was found.  The Go function never returns
a non-nil error. -/
def SonosClient.loadFavorites (parseFavs : String → List SonosFavorite)
    (net : SoapNet) (favorites : List SonosFavorite) :
    List SoapRequest × List SonosFavorite :=
  if favorites.length > 0 then
    ([], favorites)
  else
    let r := SonosClient.browseSonosRadioStations parseFavs net
    if r.2.length > 0 then
      (r.1, r.2)
    else
      (r.1, [⟨1, "[INFO] No Sonos Radio favorites found", "", ""⟩,
             ⟨2, "[INFO] Add radio stations in the Sonos app", "", ""⟩])

/-! ### Favorites dedup of the concurrent rewrite (part_001) -/

/-- The dedup key `fav.Name + "|" + fav.URI` of `removeDuplicateFavorites`. -/
def favKey (f : SonosFavorite) : String :=
  f.Name ++ "|" ++ f.URI

/-- The (name, URI) pair of a favorite — what the spec deduplicates by. -/
def favPair (f : SonosFavorite) : String × String :=
  (f.Name, f.URI)

/-- The loop of `SonosClient.removeDuplicateFavorites` (part_001 lines
947-961): `seen` is the key set (Go map), `unique` the survivors so far. -/
def removeDuplicateFavoritesAux :
    List SonosFavorite → List String → List SonosFavorite → List SonosFavorite
  | [], _, unique => unique
  | fav :: rest, seen, unique =>
    let key := favKey fav
    if seen.contains key then
      removeDuplicateFavoritesAux rest seen unique
    else
      removeDuplicateFavoritesAux rest (key :: seen)
        (unique ++ [{ fav with ID := (unique.length : Int) + 1 }])

/-- `SonosClient.removeDuplicateFavorites` (part_001 lines 947-961). -/
def SonosClient.removeDuplicateFavorites (favorites : List SonosFavorite) :
    List SonosFavorite :=
  removeDuplicateFavoritesAux favorites [] []

/-! ### Sonos playback (part_000 `PlayPreset`, `playRadioStation`) -/

/-- The wrapped-metadata string built by `PlayPreset`. -/
def playPresetMetadata (favorite : SonosFavorite) : String :=
  if favorite.Meta ≠ "" then
    "&lt;DIDL-Lite xmlns:dc=\"http://purl.org/dc/elements/1.1/\" xmlns:upnp=\"urn:schemas-upnp-org:metadata-1-0/upnp/\" xmlns=\"urn:schemas-upnp-org:metadata-1-0/DIDL-Lite/\"&gt;&lt;item id=\"FAVORITE\"&gt;" ++ escapeAngles favorite.Meta ++ "&lt;/item&gt;&lt;/DIDL-Lite&gt;"
  else
    "&lt;DIDL-Lite xmlns:dc=\"http://purl.org/dc/elements/1.1/\" xmlns:upnp=\"urn:schemas-upnp-org:metadata-1-0/upnp/\" xmlns=\"urn:schemas-upnp-org:metadata-1-0/DIDL-Lite/\"&gt;&lt;item id=\"R:0/0\"&gt;&lt;dc:title&gt;" ++ htmlEscape favorite.Name ++ "&lt;/dc:title&gt;&lt;upnp:class&gt;object.item.audioItem.audioBroadcast&lt;/upnp:class&gt;&lt;/item&gt;&lt;/DIDL-Lite&gt;"

/-- Body of the direct `SetAVTransportURI` POST of `PlayPreset`. -/
def setAVTransportURIBody (uri metadata : String) : String :=
  "<u:SetAVTransportURI xmlns:u=\"urn:schemas-upnp-org:service:AVTransport:1\"><InstanceID>0</InstanceID><CurrentURI>" ++ htmlEscape uri ++ "</CurrentURI><CurrentURIMetaData>" ++ metadata ++ "</CurrentURIMetaData></u:SetAVTransportURI>"

/-- The direct `SetAVTransportURI` request of `PlayPreset` for a favorite. -/
def setAVTransportReq (favorite : SonosFavorite) : SoapRequest :=
  ⟨"SetAVTransportURI", "AVTransport",
    setAVTransportURIBody favorite.URI (playPresetMetadata favorite)⟩

/-- Body of the `AddURIToQueue` call of `playRadioStation`. -/
def addURIToQueueBody (favorite : SonosFavorite) : String :=
  "<u:AddURIToQueue xmlns:u=\"urn:schemas-upnp-org:service:AVTransport:1\"><InstanceID>0</InstanceID><EnqueuedURI>" ++ htmlEscape favorite.URI ++ "</EnqueuedURI><EnqueuedURIMetaData>&lt;DIDL-Lite xmlns:dc=\"http://purl.org/dc/elements/1.1/\" xmlns:upnp=\"urn:schemas-upnp-org:metadata-1-0/upnp/\" xmlns=\"urn:schemas-upnp-org:metadata-1-0/DIDL-Lite/\"&gt;&lt;item id=\"R:0/0\"&gt;&lt;dc:title&gt;" ++ htmlEscape favorite.Name ++ "&lt;/dc:title&gt;&lt;upnp:class&gt;object.item.audioItem.audioBroadcast&lt;/upnp:class&gt;&lt;/item&gt;&lt;/DIDL-Lite&gt;</EnqueuedURIMetaData><DesiredFirstTrackNumberEnqueued>1</DesiredFirstTrackNumberEnqueued><EnqueueAsNext>0</EnqueueAsNext></u:AddURIToQueue>"

/-- The `AddURIToQueue` request of `playRadioStation`. -/
def addURIToQueueReq (favorite : SonosFavorite) : SoapRequest :=
  ⟨"AddURIToQueue", "AVTransport", addURIToQueueBody favorite⟩

/-- `SonosClient.playRadioStation` (part_000 lines 516-566): clear queue and
set play mode (failures ignored), enqueue (failure aborts), seek (failure
ignored), then `Play`. -/
def SonosClient.playRadioStation (net : SoapNet) (favorite : SonosFavorite) :
    List SoapRequest × Except String Unit :=
  let clear := SonosClient.makeSoapRequest net "RemoveAllTracksFromQueue" "AVTransport" clearQueueBody
  let mode := SonosClient.makeSoapRequest net "SetPlayMode" "AVTransport" setPlayModeBody
  let add := SonosClient.makeSoapRequest net "AddURIToQueue" "AVTransport" (addURIToQueueBody favorite)
  match add.2 with
  | .error e =>
    (clear.1 ++ mode.1 ++ add.1, .error ("failed to add radio to queue: " ++ e))
  | .ok _ =>
    let seek := SonosClient.makeSoapRequest net "Seek" "AVTransport" seekBody
    let play := SonosClient.Play net
    (clear.1 ++ mode.1 ++ add.1 ++ seek.1 ++ play.1, play.2)

/-- `SonosClient.PlayPreset` (part_000 lines 434-514), with the favorites
cache passed explicitly; the middle component is the cache after the
`loadFavorites` step. -/
def SonosClient.PlayPreset (parseFavs : String → List SonosFavorite)
    (net : SoapNet) (favorites : List SonosFavorite) (id : Int) :
    List SoapRequest × List SonosFavorite × Except String Unit :=
  let load := SonosClient.loadFavorites parseFavs net favorites
  let favs := load.2
  match favs.find? (fun fav => fav.ID == id) with
  | none => (load.1, favs, .error "favorite not found")
  | some favorite =>
    if goHasPrefixB favorite.Name "[INFO]" then
      (load.1, favs, .error "this is an info entry, not playable")
    else if favorite.URI = "" then
      (load.1, favs, .error "no URI available for this favorite")
    else
      let req := setAVTransportReq favorite
      match net req with
      | none => (load.1 ++ [req], favs, .error "SOAP request failed")
      | some (status, respBody) =>
        if status = 200 then
          let play := SonosClient.Play net
          (load.1 ++ [req] ++ play.1, favs, play.2)
        else if goContainsB favorite.URI "x-sonosapi" || goContainsB favorite.URI "radio" then
          let radio := SonosClient.playRadioStation net favorite
          (load.1 ++ [req] ++ radio.1, favs, radio.2)
        else
          (load.1 ++ [req], favs,
            .error ("SetAVTransportURI failed with status " ++ toString status ++ ": " ++ respBody))

/-! ### Sonos `GetStatus` (part_000 lines 330-414) -/

/-- Response-parsing oracles for `GetStatus`: each models an
`xml.Unmarshal` (`none` = unmarshal error) plus the field projection, and
`metaFields` models the regex-based `parseSonosMetadata` returning
(song, artist, album). -/
structure SonosParsers where
  transportState : String → Option String
  trackMetaData : String → Option String
  currentVolume : String → Option String
  metaFields : String → String × String × String

/-- The `GetTransportInfo` request. -/
def transportInfoReq : SoapRequest := ⟨"GetTransportInfo", "AVTransport", transportInfoBody⟩

/-- The `GetPositionInfo` request. -/
def positionInfoReq : SoapRequest := ⟨"GetPositionInfo", "AVTransport", positionInfoBody⟩

/-- The `GetVolume` request. -/
def getVolumeReq : SoapRequest := ⟨"GetVolume", "RenderingControl", getVolumeBody⟩

/-- The default status returned when the transport-state step fails. -/
def stoppedStatus : Status := ⟨"stopped", "", "", "", 0⟩

/-- `SonosClient.GetStatus`: three SOAP calls in order, each later failure
degrading to the fields already obtained.  Every Go path returns a nil
error, hence every branch is `.ok`. -/
def SonosClient.GetStatus (P : SonosParsers) (net : SoapNet) :
    List SoapRequest × Except String Status :=
  let t := SonosClient.makeSoapRequest net "GetTransportInfo" "AVTransport" transportInfoBody
  match t.2 with
  | .error _ => (t.1, .ok stoppedStatus)
  | .ok transportData =>
    match P.transportState transportData with
    | none => (t.1, .ok stoppedStatus)
    | some rawState =>
      let state := goToLower rawState
      let p := SonosClient.makeSoapRequest net "GetPositionInfo" "AVTransport" positionInfoBody
      match p.2 with
      | .error _ => (t.1 ++ p.1, .ok ⟨state, "", "", "", 0⟩)
      | .ok positionData =>
        match P.trackMetaData positionData with
        | none => (t.1 ++ p.1, .ok ⟨state, "", "", "", 0⟩)
        | some metadata =>
          let f := P.metaFields metadata
          let v := SonosClient.makeSoapRequest net "GetVolume" "RenderingControl" getVolumeBody
          let volume : Int :=
            match v.2 with
            | .error _ => 0
            | .ok volumeData =>
              match P.currentVolume volumeData with
              | none => 0
              | some cv => goAtoi cv
          (t.1 ++ p.1 ++ v.1, .ok ⟨state, f.1, f.2.1, f.2.2, volume⟩)

/-! ### Grouping command (`main.go` `groupPlayers`) and network filter
(part_001 `isUsefulNetwork`, `getAllNetworkInterfaces`) -/

/-- The `lastAction` outcome of `groupPlayers`, one constructor per
`getText` key it can set. -/
inductive GroupMessage where
  | invalidGroupFormat
  | groupingOnlyBluOS
  | errorGrouping
  | groupedPlayers (masterName : String)
deriving Repr, DecidableEq

/-- `groupPlayers` (main.go lines 238-280): validation (format, parse,
range, self-group), BluOS-only check, then the master-adds-slave call.  The
trailing TUI status refresh (`updateStatus`) is outside the embedding scope
(the spec treats the interactive loop as an external collaborator). -/
def groupPlayers (net : RestNet) (availablePlayers : List PlayerInfo)
    (groupSpec : String) : List String × GroupMessage :=
  let parts := (splitCharsOn '+' groupSpec.toList).map String.mk
  if parts.length ≠ 2 then
    ([], .invalidGroupFormat)
  else
    match goParseInt (parts.getD 0 ""), goParseInt (parts.getD 1 "") with
    | some masterID, some slaveID =>
      if masterID < 1 ∨ slaveID < 1 ∨ masterID > (availablePlayers.length : Int)
          ∨ slaveID > (availablePlayers.length : Int) then
        ([], .invalidGroupFormat)
      else if masterID = slaveID then
        ([], .invalidGroupFormat)
      else
        let masterPlayer := availablePlayers.getD ((masterID - 1).toNat) default
        let slavePlayer := availablePlayers.getD ((slaveID - 1).toNat) default
        if masterPlayer.DType ≠ DeviceType.bluos ∨ slavePlayer.DType ≠ DeviceType.bluos then
          ([], .groupingOnlyBluOS)
        else
          let r := BluesoundClient.AddSlave net slavePlayer.IP
          match r.2 with
          | .error _ => (r.1, .errorGrouping)
          | .ok _ => (r.1, .groupedPlayers masterPlayer.Name)
    | _, _ => ([], .invalidGroupFormat)

/-- Go `NetworkInterface`. -/
structure NetworkInterface where
  Name : String
  IP : String
  Subnet : String
deriving Repr, DecidableEq, Inhabited

/-- `getSubnet` (part_001 lines 618-621): first three dotted components. -/
def getSubnet (ip : String) : String :=
  String.intercalate "." (((splitCharsOn '.' ip.toList).map String.mk).take 3)

/-- `isUsefulNetwork` (part_001 lines 593-616), verbatim rule order: note
the `172.17.` allow rule precedes the Docker exclusion, so the latter is
unreachable. -/
def isUsefulNetwork (ip : String) : Bool :=
  if goHasPrefixB ip "192.168." then true
  else if goHasPrefixB ip "10.0.0." || goHasPrefixB ip "10.0.1." then true
  else if goHasPrefixB ip "172.16." || goHasPrefixB ip "172.17." then true
  else if goHasPrefixB ip "10.0.2." then false
  else if goHasPrefixB ip "172.17." then false
  else true

/-- The filtering core of `getAllNetworkInterfaces` (part_001 lines
519-590): the OS enumeration of up, non-loopback IPv4 addresses is the
`candidates` parameter (interface name, address); the function keeps the
"useful" ones and falls back to the whole list when none qualifies. -/
def getAllNetworkInterfaces (candidates : List (String × String)) :
    List NetworkInterface :=
  let mk := fun (c : String × String) =>
    NetworkInterface.mk c.1 c.2 (getSubnet c.2)
  let useful := (candidates.filter fun c => isUsefulNetwork c.2).map mk
  if useful.length = 0 then candidates.map mk else useful

/-! ## Theorems -/

/-- Two strings with distinct first characters are distinct. -/
theorem string_ne_of_head (s t : String) (c₁ c₂ : Char) (h₁ : s.data.head? = some c₁)
    (h₂ : t.data.head? = some c₂) (hne : c₁ ≠ c₂) : s ≠ t := by
  intro h
  rw [h, h₂] at h₁
  exact hne (Option.some.inj h₁).symm

/-- A non-200 REST error message is never the volume-validation message. -/
theorem apiStatus_ne_volumeMsg (s : String) :
    ("API returned status " ++ s) ≠ "volume must be between 0 and 100" := by
  refine string_ne_of_head _ _ 'A' 'v' ?_ rfl (by decide)
  rw [String.data_append]; rfl

/-- A non-200 SOAP error message is never the volume-validation message. -/
theorem soapStatus_ne_volumeMsg (s : String) :
    ("SOAP request failed with status " ++ s) ≠ "volume must be between 0 and 100" := by
  refine string_ne_of_head _ _ 'S' 'v' ?_ rfl (by decide)
  rw [String.data_append]; rfl

/-- C1: for every integer volume input `v` and both client variants,
`setVolume v` issues no network call and fails with the validation error
exactly when `v < 0` or `v > 100`; for `v` in `[0, 100]` the request is
issued (one call) and the result is never the validation error. -/
theorem setVolume_validates_range (net : RestNet) (snet : SoapNet) (v : Int) :
    (((BluesoundClient.SetVolume net v).1 = [] ∧
        (BluesoundClient.SetVolume net v).2 = .error "volume must be between 0 and 100") ↔
      (v < 0 ∨ v > 100)) ∧
    (((SonosClient.SetVolume snet v).1 = [] ∧
        (SonosClient.SetVolume snet v).2 = .error "volume must be between 0 and 100") ↔
      (v < 0 ∨ v > 100)) ∧
    (0 ≤ v → v ≤ 100 →
      (BluesoundClient.SetVolume net v).1 = ["/Volume?level=" ++ toString v] ∧
      (SonosClient.SetVolume snet v).1 =
        [⟨"SetVolume", "RenderingControl", sonosSetVolumeBody v⟩] ∧
      (BluesoundClient.SetVolume net v).2 ≠ .error "volume must be between 0 and 100" ∧
      (SonosClient.SetVolume snet v).2 ≠ .error "volume must be between 0 and 100") := by
  by_cases hv : v < 0 ∨ v > 100
  · refine ⟨?_, ?_, ?_⟩
    · simp [BluesoundClient.SetVolume, hv]
    · simp [SonosClient.SetVolume, hv]
    · intro h0 h100
      exact absurd hv (by omega)
  · have hb : BluesoundClient.SetVolume net v =
        (["/Volume?level=" ++ toString v],
          (BluesoundClient.makeRequest net ("/Volume?level=" ++ toString v)).2.map fun _ => ()) := by
      simp [BluesoundClient.SetVolume, hv, BluesoundClient.makeRequest]
    have hs : SonosClient.SetVolume snet v =
        ([⟨"SetVolume", "RenderingControl", sonosSetVolumeBody v⟩],
          (SonosClient.makeSoapRequest snet "SetVolume" "RenderingControl"
            (sonosSetVolumeBody v)).2.map fun _ => ()) := by
      simp [SonosClient.SetVolume, hv, soapUnit, SonosClient.makeSoapRequest]
    refine ⟨?_, ?_, ?_⟩
    · rw [hb]; simp [hv]
    · rw [hs]; simp [hv]
    · intro _ _
      refine ⟨by rw [hb], by rw [hs], ?_, ?_⟩
      · rw [hb]
        simp only [BluesoundClient.makeRequest]
        match net ("/Volume?level=" ++ toString v) with
        | none => simp [Except.map]
        | some (status, body) =>
          by_cases h200 : status = 200
          · simp [h200, Except.map]
          · simpa [h200, Except.map] using apiStatus_ne_volumeMsg (toString status)
      · rw [hs]
        simp only [SonosClient.makeSoapRequest]
        match snet ⟨"SetVolume", "RenderingControl", sonosSetVolumeBody v⟩ with
        | none => simp [Except.map]
        | some (status, body) =>
          by_cases h200 : status = 200
          · simp [h200, Except.map]
          · have := soapStatus_ne_volumeMsg (toString status ++ ": " ++ body)
            simpa [h200, Except.map, String.append_assoc] using this

/-- C1 witness: concrete evaluations at `v = 101` (rejected, no request) and
`v = 55` (request issued, not a validation error), on a network oracle that
always answers 200. -/
theorem setVolume_validates_range_witness :
    ((BluesoundClient.SetVolume (fun _ => some (200, "")) 101).1 = [] ∧
      (BluesoundClient.SetVolume (fun _ => some (200, "")) 101).2 =
        .error "volume must be between 0 and 100") ∧
    (BluesoundClient.SetVolume (fun _ => some (200, "")) 55).1 = ["/Volume?level=55"] ∧
    (SonosClient.SetVolume (fun _ => some (200, "")) 55).2 ≠
      .error "volume must be between 0 and 100" := by
  refine ⟨(setVolume_validates_range (fun _ => some (200, ""))
      (fun _ => some (200, "")) 101).1.mpr (by decide), ?_, ?_⟩
  · exact ((setVolume_validates_range (fun _ => some (200, ""))
      (fun _ => some (200, "")) 55).2.2 (by decide) (by decide)).1
  · exact ((setVolume_validates_range (fun _ => some (200, ""))
      (fun _ => some (200, "")) 55).2.2 (by decide) (by decide)).2.2.2

/-- C9: every grouping operation of the SOAP client returns the fixed
capability error (`"Sonos grouping not yet implemented"`) with an empty
request trace, for every network oracle and every argument — it never
succeeds and does not depend on any transient condition. -/
theorem sonos_grouping_always_fails (net : SoapNet) (ip : String) :
    SonosClient.AddSlave net ip = ([], .error "Sonos grouping not yet implemented") ∧
    SonosClient.RemoveSlave net ip = ([], .error "Sonos grouping not yet implemented") ∧
    SonosClient.RemoveAllSlaves net = ([], .error "Sonos grouping not yet implemented") ∧
    SonosClient.LeaveGroup net = ([], .error "Sonos grouping not yet implemented") :=
  ⟨rfl, rfl, rfl, rfl⟩

/-- C6: on a SOAP session with a non-empty favorites cache, `PlayPreset`
of an id resolving to an `[INFO]`-prefixed entry fails with the info-entry
error and issues zero HTTP requests. -/
theorem playPreset_info_entry_no_request
    (parseFavs : String → List SonosFavorite) (net : SoapNet)
    (favs : List SonosFavorite) (id : Int) (fav : SonosFavorite)
    (hne : favs ≠ [])
    (hfind : favs.find? (fun f => f.ID == id) = some fav)
    (hinfo : goHasPrefixB fav.Name "[INFO]" = true) :
    SonosClient.PlayPreset parseFavs net favs id =
      ([], favs, .error "this is an info entry, not playable") := by
  have hlen : 0 < favs.length := List.length_pos.mpr hne
  simp [SonosClient.PlayPreset, SonosClient.loadFavorites, hlen, hfind, hinfo]

/-- C6 witness: the scenario of the spec's end-to-end scenario C — the only
cached favorite is the `[INFO]` placeholder; `playPreset 1` errors with an
empty trace, on an oracle that would answer 200 to anything. -/
theorem playPreset_info_entry_no_request_witness :
    SonosClient.PlayPreset (fun _ => []) (fun _ => some (200, ""))
        [⟨1, "[INFO] No Sonos Radio favorites found", "", ""⟩] 1 =
      ([], [⟨1, "[INFO] No Sonos Radio favorites found", "", ""⟩],
        .error "this is an info entry, not playable") :=
  playPreset_info_entry_no_request (fun _ => []) (fun _ => some (200, ""))
    [⟨1, "[INFO] No Sonos Radio favorites found", "", ""⟩] 1
    ⟨1, "[INFO] No Sonos Radio favorites found", "", ""⟩
    (by decide) (by decide) (by decide)

/-- C10: on a SOAP session with a non-empty favorites cache, `PlayPreset`
of an id resolving to a non-`[INFO]` entry with an empty URI fails with
`"no URI available for this favorite"` and issues zero HTTP requests. -/
theorem playPreset_empty_uri_no_request
    (parseFavs : String → List SonosFavorite) (net : SoapNet)
    (favs : List SonosFavorite) (id : Int) (fav : SonosFavorite)
    (hne : favs ≠ [])
    (hfind : favs.find? (fun f => f.ID == id) = some fav)
    (hinfo : goHasPrefixB fav.Name "[INFO]" = false)
    (huri : fav.URI = "") :
    SonosClient.PlayPreset parseFavs net favs id =
      ([], favs, .error "no URI available for this favorite") := by
  have hlen : 0 < favs.length := List.length_pos.mpr hne
  simp [SonosClient.PlayPreset, SonosClient.loadFavorites, hlen, hfind, hinfo, huri]

/-- C10 witness: a cached favorite with a title but no resource URI. -/
theorem playPreset_empty_uri_no_request_witness :
    SonosClient.PlayPreset (fun _ => []) (fun _ => some (200, ""))
        [⟨1, "My Song", "", "<dc:title>My Song</dc:title>"⟩] 1 =
      ([], [⟨1, "My Song", "", "<dc:title>My Song</dc:title>"⟩],
        .error "no URI available for this favorite") :=
  playPreset_empty_uri_no_request (fun _ => []) (fun _ => some (200, ""))
    [⟨1, "My Song", "", "<dc:title>My Song</dc:title>"⟩] 1
    ⟨1, "My Song", "", "<dc:title>My Song</dc:title>"⟩
    (by decide) (by decide) (by decide) (by decide)

/-- C7: evaluation of the network filter at the decisive inputs.  The
VirtualBox-NAT range 10.0.2.0/24 is excluded when another candidate exists
and kept when it is the only one (the fall-back), but a Docker-bridge
address 172.17.0.5 passes `isUsefulNetwork` — the `172.17.` allow rule
precedes the Docker exclusion, which is therefore unreachable — so the
container-bridge range is NOT excluded, contradicting the claim. -/
theorem networkFilter_docker_not_excluded :
    isUsefulNetwork "172.17.0.5" = true ∧
    isUsefulNetwork "10.0.2.15" = false ∧
    getAllNetworkInterfaces [("eth0", "192.168.1.10"), ("docker0", "172.17.0.5")] =
      [⟨"eth0", "192.168.1.10", "192.168.1"⟩, ⟨"docker0", "172.17.0.5", "172.17.0"⟩] ∧
    getAllNetworkInterfaces [("eth0", "192.168.1.10"), ("vbox0", "10.0.2.15")] =
      [⟨"eth0", "192.168.1.10", "192.168.1"⟩] ∧
    getAllNetworkInterfaces [("vbox0", "10.0.2.15")] =
      [⟨"vbox0", "10.0.2.15", "10.0.2"⟩] := by
  refine ⟨by decide, by decide, ?_, ?_, ?_⟩ <;>
    simp [getAllNetworkInterfaces, getSubnet, isUsefulNetwork] <;> decide

/-- Helper for C3: every branch of `GetStatus` returns `.ok`. -/
theorem getStatus_isOk (P : SonosParsers) (net : SoapNet) :
    ((SonosClient.GetStatus P net).2).isOk = true := by
  unfold SonosClient.GetStatus SonosClient.makeSoapRequest
  dsimp only
  split
  · rfl
  · split
    · rfl
    · split
      · rfl
      · split
        · rfl
        · rfl

/-- C3: `GetStatus` on the SOAP client.  (i) If the `GetTransportInfo`
call fails (transport error or non-200) or its response does not parse,
the result is `.ok` of the default stopped status (state "stopped", empty
song/artist/album, volume 0) — no error.  (ii) If the transport step
succeeds but `GetPositionInfo` fails or does not parse, the result keeps
the obtained state and degrades the rest; if position succeeds but
`GetVolume` fails or does not parse, only the volume degrades to 0.
(iii) `GetStatus` never returns an error. -/
theorem getStatus_degrades_gracefully (P : SonosParsers) (net : SoapNet) :
    ((net transportInfoReq = none ∨
        (∃ st b, net transportInfoReq = some (st, b) ∧ st ≠ 200) ∨
        (∃ b, net transportInfoReq = some (200, b) ∧ P.transportState b = none)) →
      (SonosClient.GetStatus P net).2 = .ok stoppedStatus) ∧
    (∀ b rawState, net transportInfoReq = some (200, b) →
      P.transportState b = some rawState →
      ((net positionInfoReq = none ∨
          (∃ st pb, net positionInfoReq = some (st, pb) ∧ st ≠ 200) ∨
          (∃ pb, net positionInfoReq = some (200, pb) ∧ P.trackMetaData pb = none)) →
        (SonosClient.GetStatus P net).2 = .ok ⟨goToLower rawState, "", "", "", 0⟩) ∧
      (∀ pb md, net positionInfoReq = some (200, pb) → P.trackMetaData pb = some md →
        (net getVolumeReq = none ∨
          (∃ st vb, net getVolumeReq = some (st, vb) ∧ st ≠ 200) ∨
          (∃ vb, net getVolumeReq = some (200, vb) ∧ P.currentVolume vb = none)) →
        (SonosClient.GetStatus P net).2 =
          .ok ⟨goToLower rawState, (P.metaFields md).1, (P.metaFields md).2.1,
               (P.metaFields md).2.2, 0⟩)) ∧
    ((SonosClient.GetStatus P net).2).isOk = true := by
  have ht : transportInfoReq = (⟨"GetTransportInfo", "AVTransport", transportInfoBody⟩ : SoapRequest) := rfl
  have hp : positionInfoReq = (⟨"GetPositionInfo", "AVTransport", positionInfoBody⟩ : SoapRequest) := rfl
  have hv : getVolumeReq = (⟨"GetVolume", "RenderingControl", getVolumeBody⟩ : SoapRequest) := rfl
  refine ⟨?_, ?_, getStatus_isOk P net⟩
  · rintro (h | ⟨st, b, h, hst⟩ | ⟨b, h, hparse⟩)
    · rw [ht] at h
      simp [SonosClient.GetStatus, SonosClient.makeSoapRequest, h]
    · rw [ht] at h
      simp [SonosClient.GetStatus, SonosClient.makeSoapRequest, h, hst]
    · rw [ht] at h
      simp [SonosClient.GetStatus, SonosClient.makeSoapRequest, h, hparse]
  · intro b rawState htr hparse
    rw [ht] at htr
    constructor
    · rintro (h | ⟨st, pb, h, hst⟩ | ⟨pb, h, hpb⟩)
      · rw [hp] at h
        simp [SonosClient.GetStatus, SonosClient.makeSoapRequest, htr, hparse, h]
      · rw [hp] at h
        simp [SonosClient.GetStatus, SonosClient.makeSoapRequest, htr, hparse, h, hst]
      · rw [hp] at h
        simp [SonosClient.GetStatus, SonosClient.makeSoapRequest, htr, hparse, h, hpb]
    · intro pb md hpos hmd hvol
      rw [hp] at hpos
      rcases hvol with h | ⟨st, vb, h, hst⟩ | ⟨vb, h, hvb⟩
      · rw [hv] at h
        simp [SonosClient.GetStatus, SonosClient.makeSoapRequest, htr, hparse, hpos, hmd, h]
      · rw [hv] at h
        simp [SonosClient.GetStatus, SonosClient.makeSoapRequest, htr, hparse, hpos, hmd, h, hst]
      · rw [hv] at h
        simp [SonosClient.GetStatus, SonosClient.makeSoapRequest, htr, hparse, hpos, hmd, h, hvb]

/-- C3 witness: on an oracle that refuses every request, `GetStatus`
returns the default stopped status with no error. -/
theorem getStatus_degrades_gracefully_witness :
    (SonosClient.GetStatus ⟨fun _ => none, fun _ => none, fun _ => none,
        fun _ => ("", "", "")⟩ (fun _ => none)).2 = .ok stoppedStatus :=
  (getStatus_degrades_gracefully ⟨fun _ => none, fun _ => none, fun _ => none,
      fun _ => ("", "", "")⟩ (fun _ => none)).1 (Or.inl rfl)

/-- C5: the radio classifier.  Positive side: a URI beginning with
`http://`, `https://` or `x-sonosapi-stream:`, or metadata containing the
broadcast class marker `object.item.audioItem.audioBroadcast`, classifies
as radio.  Negative side: a favorite whose URI matches none of the eight
allowlisted scheme prefixes, whose metadata contains none of the three
broadcast markers, and whose name contains no radio keyword
(case-insensitively) is not classified as radio. -/
theorem isRadioStation_classification (fav : SonosFavorite) :
    ((goHasPrefixB fav.URI "http://" = true ∨ goHasPrefixB fav.URI "https://" = true ∨
        goHasPrefixB fav.URI "x-sonosapi-stream:" = true ∨
        goContainsB fav.Meta "object.item.audioItem.audioBroadcast" = true) →
      SonosClient.isRadioStation fav = true) ∧
    ((∀ p ∈ radioPatterns, goHasPrefixB fav.URI p = false) →
      goContainsB fav.Meta "object.item.audioItem.audioBroadcast" = false →
      goContainsB fav.Meta "object.item.audioItem.radio" = false →
      goContainsB fav.Meta "radioBroadcast" = false →
      (∀ k ∈ radioNamePatterns, goContainsB (goToLower fav.Name) (goToLower k) = false) →
      SonosClient.isRadioStation fav = false) := by
  constructor
  · rintro (h | h | h | h)
    · have hany : radioPatterns.any (fun pattern => goHasPrefixB fav.URI pattern) = true :=
        List.any_eq_true.mpr ⟨"http://", by simp [radioPatterns], h⟩
      simp [SonosClient.isRadioStation, hany]
    · have hany : radioPatterns.any (fun pattern => goHasPrefixB fav.URI pattern) = true :=
        List.any_eq_true.mpr ⟨"https://", by simp [radioPatterns], h⟩
      simp [SonosClient.isRadioStation, hany]
    · have hany : radioPatterns.any (fun pattern => goHasPrefixB fav.URI pattern) = true :=
        List.any_eq_true.mpr ⟨"x-sonosapi-stream:", by simp [radioPatterns], h⟩
      simp [SonosClient.isRadioStation, hany]
    · by_cases hany : radioPatterns.any (fun pattern => goHasPrefixB fav.URI pattern) = true
      · simp [SonosClient.isRadioStation, hany]
      · simp [SonosClient.isRadioStation, hany, h]
  · intro hpat h1 h2 h3 hname
    have hany : radioPatterns.any (fun pattern => goHasPrefixB fav.URI pattern) = false :=
      List.any_eq_false.mpr (by intro p hp; simp [hpat p hp])
    have hname' : radioNamePatterns.any
        (fun pattern => goContainsB (goToLower fav.Name) (goToLower pattern)) = false :=
      List.any_eq_false.mpr (by intro k hk; simp [hname k hk])
    simp [SonosClient.isRadioStation, hany, h1, h2, h3, hname']

/-- C5 witness: `"Jazz FM"` at `http://stream.example/radio` is radio;
`"My Song"` at `x-file-cifs://server/track.mp3` with track metadata is
not (the spec's end-to-end scenario B pair). -/
theorem isRadioStation_classification_witness :
    SonosClient.isRadioStation ⟨1, "Jazz FM", "http://stream.example/radio", ""⟩ = true ∧
    SonosClient.isRadioStation
      ⟨2, "My Song", "x-file-cifs://server/track.mp3",
        "<upnp:class>object.item.audioItem.musicTrack</upnp:class>"⟩ = false := by
  constructor
  · exact (isRadioStation_classification
      ⟨1, "Jazz FM", "http://stream.example/radio", ""⟩).1 (Or.inl (by decide))
  · exact (isRadioStation_classification
      ⟨2, "My Song", "x-file-cifs://server/track.mp3",
        "<upnp:class>object.item.audioItem.musicTrack</upnp:class>"⟩).2
      (by decide) (by decide) (by decide) (by decide) (by decide)

/-- C8: when the direct `SetAVTransportURI` of a cached, playable favorite
receives a non-200 response and the URI matches the streaming/radio
heuristic (`x-sonosapi` or `radio` substring), `PlayPreset` hands over to
`playRadioStation` after the direct request; `playRadioStation` issues, in
order, clear-queue, set-play-mode and enqueue regardless of the first two
steps' outcomes; when the enqueue succeeds it continues with seek and
`Play` (whatever the seek outcome) and returns the `Play` result, while an
enqueue failure aborts with the wrapped enqueue error and no further
requests. -/
theorem playPreset_radio_fallback
    (parseFavs : String → List SonosFavorite) (net : SoapNet)
    (favs : List SonosFavorite) (id : Int) (fav : SonosFavorite)
    (status : Nat) (respBody : String)
    (hne : favs ≠ [])
    (hfind : favs.find? (fun f => f.ID == id) = some fav)
    (hinfo : goHasPrefixB fav.Name "[INFO]" = false)
    (huri : fav.URI ≠ "")
    (hresp : net (setAVTransportReq fav) = some (status, respBody))
    (hstatus : status ≠ 200)
    (hradio : (goContainsB fav.URI "x-sonosapi" || goContainsB fav.URI "radio") = true) :
    SonosClient.PlayPreset parseFavs net favs id =
      (setAVTransportReq fav :: (SonosClient.playRadioStation net fav).1, favs,
        (SonosClient.playRadioStation net fav).2) ∧
    (SonosClient.playRadioStation net fav).1.map SoapRequest.action =
      ["RemoveAllTracksFromQueue", "SetPlayMode", "AddURIToQueue"] ++
        (match (SonosClient.makeSoapRequest net "AddURIToQueue" "AVTransport"
            (addURIToQueueBody fav)).2 with
          | .ok _ => ["Seek", "Play"]
          | .error _ => []) ∧
    (∀ e, (SonosClient.makeSoapRequest net "AddURIToQueue" "AVTransport"
        (addURIToQueueBody fav)).2 = .error e →
      (SonosClient.playRadioStation net fav).2 =
        .error ("failed to add radio to queue: " ++ e)) ∧
    (∀ rb, (SonosClient.makeSoapRequest net "AddURIToQueue" "AVTransport"
        (addURIToQueueBody fav)).2 = .ok rb →
      (SonosClient.playRadioStation net fav).2 = (SonosClient.Play net).2) := by
  have hlen : 0 < favs.length := List.length_pos.mpr hne
  refine ⟨?_, ?_, ?_, ?_⟩
  · simp [SonosClient.PlayPreset, SonosClient.loadFavorites, hlen, hfind, hinfo, huri,
      hresp, hstatus, hradio]
  · unfold SonosClient.playRadioStation
    rcases hnet : net ⟨"AddURIToQueue", "AVTransport", addURIToQueueBody fav⟩ with _ | ⟨st, rb⟩
    · simp [SonosClient.makeSoapRequest, hnet]
    · by_cases h200 : st = 200 <;>
        simp [SonosClient.makeSoapRequest, SonosClient.Play, soapUnit, hnet, h200]
  · intro e hadd
    simp only [SonosClient.makeSoapRequest] at hadd
    unfold SonosClient.playRadioStation
    simp [SonosClient.makeSoapRequest, hadd]
  · intro rb hadd
    simp only [SonosClient.makeSoapRequest] at hadd
    unfold SonosClient.playRadioStation
    simp [SonosClient.makeSoapRequest, hadd]

/-- Concrete oracle for the C8 witness: refuses the direct
`SetAVTransportURI` with a 500, answers 200 to everything else. -/
def radioFallbackNet : SoapNet := fun req =>
  if req.action == "SetAVTransportURI" then some (500, "device refused")
  else some (200, "ok")

/-- Concrete streaming favorite for the C8 witness. -/
def radioFallbackFav : SonosFavorite :=
  ⟨1, "Jazz", "x-sonosapi-stream:s123", "meta"⟩

/-- C8 witness: on the concrete oracle the fallback runs all four steps and
then `Play`, in order, after the refused direct request. -/
theorem playPreset_radio_fallback_witness :
    SonosClient.PlayPreset (fun _ => []) radioFallbackNet [radioFallbackFav] 1 =
      (setAVTransportReq radioFallbackFav ::
          (SonosClient.playRadioStation radioFallbackNet radioFallbackFav).1,
        [radioFallbackFav],
        (SonosClient.playRadioStation radioFallbackNet radioFallbackFav).2) ∧
    (SonosClient.playRadioStation radioFallbackNet radioFallbackFav).1.map
        SoapRequest.action =
      ["RemoveAllTracksFromQueue", "SetPlayMode", "AddURIToQueue", "Seek", "Play"] := by
  have h := playPreset_radio_fallback (fun _ => []) radioFallbackNet
    [radioFallbackFav] 1 radioFallbackFav 500 "device refused"
    (by decide) (by decide) (by decide) (by decide) (by decide) (by decide) (by decide)
  refine ⟨h.1, ?_⟩
  have hb := h.2.1
  have hadd : (SonosClient.makeSoapRequest radioFallbackNet "AddURIToQueue" "AVTransport"
      (addURIToQueueBody radioFallbackFav)).2 = .ok "ok" := rfl
  rw [hadd] at hb
  simpa using hb

/-- The `/Presets` fixture document of the C2 counterexample. -/
def presetsFixtureXML : String :=
  "<presets><preset id=\"1\" name=\"Spotify Daily Mix\"/><preset id=\"2\" name=\"Radio Paradise\"/><preset id=\"3\" name=\"Classical WQXR\"/></presets>"

/-- The preset list the fixture document unmarshals to. -/
def presetsFixture : List Preset :=
  [⟨1, "Spotify Daily Mix", "", ""⟩, ⟨2, "Radio Paradise", "", ""⟩,
   ⟨3, "Classical WQXR", "", ""⟩]

/-- Oracle serving the fixture presets and answering 200 everywhere else. -/
def restFixtureNet : RestNet := fun endpoint =>
  if endpoint == "/Presets" then some (200, presetsFixtureXML) else some (200, "")

/-- `xml.Unmarshal` oracle for the fixture document. -/
def parsePresetsFixture : String → Option (List Preset) := fun s =>
  if s == presetsFixtureXML then some presetsFixture else none

/-- C2 counterexample: on the REST client, the current preset list is the
three fixture entries, id 42 is not among them, and yet `PlayPreset 42`
issues the HTTP request `/Preset?id=42` and even succeeds — the claim that
an unknown preset id fails without any HTTP request on *either* client
variant is false for the REST variant, which performs no client-side id
check at all. -/
theorem playPreset_rest_no_id_validation :
    (BluesoundClient.GetPresets restFixtureNet parsePresetsFixture).2 = .ok presetsFixture ∧
    presetsFixture.all (fun p => p.ID != 42) = true ∧
    (BluesoundClient.PlayPreset restFixtureNet 42).1 = ["/Preset?id=42"] ∧
    (BluesoundClient.PlayPreset restFixtureNet 42).2 = .ok () :=
  ⟨rfl, by decide, rfl, rfl⟩

/-- C2 (amended): out-of-range volume, malformed/out-of-range/self group
specifications, and — on the SOAP variant — an id absent from the cached
preset list are all rejected before any network call (empty trace); the
REST variant forwards `playPreset` without consulting a preset list (see
the counterexample). -/
theorem validation_rejected_before_network :
    (∀ (net : RestNet) (snet : SoapNet) (v : Int), (v < 0 ∨ v > 100) →
      BluesoundClient.SetVolume net v = ([], .error "volume must be between 0 and 100") ∧
      SonosClient.SetVolume snet v = ([], .error "volume must be between 0 and 100")) ∧
    (∀ (net : RestNet) (players : List PlayerInfo) (spec : String),
      (((splitCharsOn '+' spec.toList).map String.mk).length ≠ 2 ∨
        goParseInt (((splitCharsOn '+' spec.toList).map String.mk).getD 0 "") = none ∨
        goParseInt (((splitCharsOn '+' spec.toList).map String.mk).getD 1 "") = none ∨
        (∃ m s : Int,
          goParseInt (((splitCharsOn '+' spec.toList).map String.mk).getD 0 "") = some m ∧
          goParseInt (((splitCharsOn '+' spec.toList).map String.mk).getD 1 "") = some s ∧
          (m < 1 ∨ s < 1 ∨ m > (players.length : Int) ∨ s > (players.length : Int) ∨ m = s))) →
      groupPlayers net players spec = ([], .invalidGroupFormat)) ∧
    (∀ (parseFavs : String → List SonosFavorite) (snet : SoapNet)
        (favs : List SonosFavorite) (id : Int),
      favs ≠ [] → favs.find? (fun f => f.ID == id) = none →
      SonosClient.PlayPreset parseFavs snet favs id =
        ([], favs, .error "favorite not found")) := by
  refine ⟨?_, ?_, ?_⟩
  · intro net snet v hv
    constructor
    · simp [BluesoundClient.SetVolume, hv]
    · simp [SonosClient.SetVolume, hv]
  · intro net players spec h
    unfold groupPlayers
    dsimp only
    by_cases hlen : ((splitCharsOn '+' spec.toList).map String.mk).length ≠ 2
    · rw [if_pos hlen]
    · rw [if_neg hlen]
      rcases hm : goParseInt (((splitCharsOn '+' spec.toList).map String.mk).getD 0 "") with _ | m <;>
        rcases hs : goParseInt (((splitCharsOn '+' spec.toList).map String.mk).getD 1 "") with _ | s
      · rfl
      · rfl
      · rfl
      · rcases h with h | h | h | ⟨m', s', hm', hs', hcond⟩
        · exact absurd h hlen
        · rw [hm] at h; exact Option.noConfusion h
        · rw [hs] at h; exact Option.noConfusion h
        · rw [hm] at hm'; rw [hs] at hs'
          obtain rfl : m = m' := Option.some.inj hm'
          obtain rfl : s = s' := Option.some.inj hs'
          dsimp only
          by_cases hrange : m < 1 ∨ s < 1 ∨ m > (players.length : Int) ∨ s > (players.length : Int)
          · rw [if_pos hrange]
          · rw [if_neg hrange, if_pos (show m = s by tauto)]
  · intro parseFavs snet favs id hne hfind
    have hlen : 0 < favs.length := List.length_pos.mpr hne
    simp [SonosClient.PlayPreset, SonosClient.loadFavorites, hlen, hfind]

/-- C2 amended witness: volume 101 rejected with no request; the
self-grouping spec "1+1" rejected with no request; `playPreset 9` on a
SOAP session whose only cached favorite has id 1 rejected with no request. -/
theorem validation_rejected_before_network_witness :
    BluesoundClient.SetVolume (fun _ => some (200, "")) 101 =
      ([], .error "volume must be between 0 and 100") ∧
    groupPlayers (fun _ => some (200, "")) [] "1+1" = ([], .invalidGroupFormat) ∧
    SonosClient.PlayPreset (fun _ => []) (fun _ => none)
        [⟨1, "Jazz FM", "http://stream.example/radio", ""⟩] 9 =
      ([], [⟨1, "Jazz FM", "http://stream.example/radio", ""⟩],
        .error "favorite not found") := by
  refine ⟨(validation_rejected_before_network.1 (fun _ => some (200, ""))
      (fun _ => none) 101 (by omega)).1, ?_, ?_⟩
  · refine validation_rejected_before_network.2.1 (fun _ => some (200, "")) [] "1+1" ?_
    right; right; right
    exact ⟨1, 1, by decide, by decide, by omega⟩
  · exact validation_rejected_before_network.2.2 (fun _ => []) (fun _ => none)
      [⟨1, "Jazz FM", "http://stream.example/radio", ""⟩] 9 (by decide) (by decide)

/-- The integer list `[n+1, n+2, ..., n+k]`. -/
def idIntsFrom : Nat → Nat → List Int
  | _, 0 => []
  | n, k + 1 => ((n : Int) + 1) :: idIntsFrom (n + 1) k

/-- Ordinal ids are exactly `1..N`, contiguous and in list order. -/
def contiguousIds (l : List SonosFavorite) : Prop :=
  l.map (fun f => f.ID) = idIntsFrom 0 l.length

/-- `[n+1..n+k+1]` is `[n+1..n+k]` followed by `n+k+1`. -/
theorem idIntsFrom_concat :
    ∀ (k n : Nat), idIntsFrom n (k + 1) = idIntsFrom n k ++ [((n + k : Nat) : Int) + 1]
  | 0, n => by simp [idIntsFrom]
  | k + 1, n => by
    rw [idIntsFrom, idIntsFrom_concat k (n + 1), idIntsFrom]
    rw [List.cons_append]
    have : ((n + 1 + k : Nat) : Int) = ((n + (k + 1) : Nat) : Int) := by push_cast; ring
    rw [this]

/-- The invariant of the `removeDuplicateFavorites` loop: if `seen` is
exactly the key set of `unique`, `unique` carries contiguous ids and
pairwise distinct keys, then the loop's result keeps contiguous ids and
pairwise distinct keys, retains every accumulated entry, covers the key of
every remaining input entry, and its (name, URI) pairs form a sublist of
the accumulated plus remaining pairs. -/
theorem removeDupAux_spec :
    ∀ (l : List SonosFavorite) (seen : List String) (unique : List SonosFavorite),
    (∀ k, seen.contains k = true ↔ ∃ g ∈ unique, favKey g = k) →
    unique.map (fun f => f.ID) = idIntsFrom 0 unique.length →
    unique.Pairwise (fun a b => favKey a ≠ favKey b) →
    ((removeDuplicateFavoritesAux l seen unique).map (fun f => f.ID) =
        idIntsFrom 0 (removeDuplicateFavoritesAux l seen unique).length) ∧
    (removeDuplicateFavoritesAux l seen unique).Pairwise
      (fun a b => favKey a ≠ favKey b) ∧
    (∀ g ∈ unique, g ∈ removeDuplicateFavoritesAux l seen unique) ∧
    (∀ fav ∈ l, ∃ g ∈ removeDuplicateFavoritesAux l seen unique,
      favKey g = favKey fav) ∧
    List.Sublist ((removeDuplicateFavoritesAux l seen unique).map favPair)
      (unique.map favPair ++ l.map favPair)
  | [], seen, unique => by
    intro hcorr hids hpw
    refine ⟨hids, hpw, fun g hg => hg, by simp, ?_⟩
    simp [removeDuplicateFavoritesAux]
  | fav :: rest, seen, unique => by
    intro hcorr hids hpw
    by_cases hseen : seen.contains (favKey fav) = true
    · have hred : removeDuplicateFavoritesAux (fav :: rest) seen unique =
          removeDuplicateFavoritesAux rest seen unique := by
        show (if seen.contains (favKey fav) = true then
            removeDuplicateFavoritesAux rest seen unique
          else removeDuplicateFavoritesAux rest (favKey fav :: seen)
            (unique ++ [{ fav with ID := (unique.length : Int) + 1 }])) =
          removeDuplicateFavoritesAux rest seen unique
        rw [if_pos hseen]
      obtain ⟨ih1, ih2, ih3, ih4, ih5⟩ := removeDupAux_spec rest seen unique hcorr hids hpw
      rw [hred]
      refine ⟨ih1, ih2, ih3, ?_, ?_⟩
      · intro f hf
        rcases List.mem_cons.mp hf with rfl | hf'
        · obtain ⟨g, hg, hkey⟩ := (hcorr (favKey f)).mp hseen
          exact ⟨g, ih3 g hg, hkey⟩
        · exact ih4 f hf'
      · refine ih5.trans ?_
        exact List.Sublist.append_left (List.sublist_cons_self _ _) _
    · have hfalse : seen.contains (favKey fav) = false := by
        simpa using hseen
      have hred : removeDuplicateFavoritesAux (fav :: rest) seen unique =
          removeDuplicateFavoritesAux rest (favKey fav :: seen)
            (unique ++ [{ fav with ID := (unique.length : Int) + 1 }]) := by
        show (if seen.contains (favKey fav) = true then
            removeDuplicateFavoritesAux rest seen unique
          else removeDuplicateFavoritesAux rest (favKey fav :: seen)
            (unique ++ [{ fav with ID := (unique.length : Int) + 1 }])) =
          removeDuplicateFavoritesAux rest (favKey fav :: seen)
            (unique ++ [{ fav with ID := (unique.length : Int) + 1 }])
        rw [if_neg hseen]
      set fav' : SonosFavorite := { fav with ID := (unique.length : Int) + 1 } with hfav'
      have hkey' : favKey fav' = favKey fav := rfl
      have hpair' : favPair fav' = favPair fav := rfl
      have hnotin : ¬∃ g ∈ unique, favKey g = favKey fav := by
        intro hex
        rw [← hcorr (favKey fav), hfalse] at hex
        exact Bool.false_ne_true hex
      have hcorr' : ∀ k, (favKey fav :: seen).contains k = true ↔
          ∃ g ∈ unique ++ [fav'], favKey g = k := by
        intro k
        simp only [List.contains_cons, Bool.or_eq_true, beq_iff_eq, List.mem_append,
          List.mem_singleton]
        constructor
        · rintro (rfl | hk)
          · exact ⟨fav', Or.inr rfl, rfl⟩
          · obtain ⟨g, hg, hkey⟩ := (hcorr k).mp hk
            exact ⟨g, Or.inl hg, hkey⟩
        · rintro ⟨g, hg | rfl, hkey⟩
          · exact Or.inr ((hcorr k).mpr ⟨g, hg, hkey⟩)
          · exact Or.inl hkey.symm
      have hids' : (unique ++ [fav']).map (fun f => f.ID) =
          idIntsFrom 0 (unique ++ [fav']).length := by
        rw [List.map_append, hids]
        simp only [List.length_append, List.length_singleton]
        rw [idIntsFrom_concat unique.length 0]
        simp [hfav']
      have hpw' : (unique ++ [fav']).Pairwise (fun a b => favKey a ≠ favKey b) := by
        rw [List.pairwise_append]
        refine ⟨hpw, List.pairwise_singleton _ _, ?_⟩
        intro a ha b hb
        rcases List.mem_singleton.mp hb with rfl
        rw [hkey']
        intro hcontra
        exact hnotin ⟨a, ha, hcontra⟩
      obtain ⟨ih1, ih2, ih3, ih4, ih5⟩ :=
        removeDupAux_spec rest (favKey fav :: seen) (unique ++ [fav']) hcorr' hids' hpw'
      rw [hred]
      refine ⟨ih1, ih2, ?_, ?_, ?_⟩
      · intro g hg
        exact ih3 g (List.mem_append.mpr (Or.inl hg))
      · intro f hf
        rcases List.mem_cons.mp hf with rfl | hf'
        · exact ⟨fav', ih3 fav' (List.mem_append.mpr (Or.inr (List.mem_singleton.mpr rfl))),
            hkey'⟩
        · exact ih4 f hf'
      · refine ih5.trans ?_
        rw [List.map_append]
        simp only [List.map_cons, List.map_singleton, hpair']
        rw [List.append_assoc]
        simp

/-- The URI-or-name dedup guard of `browseSonosRadioStations` keeps the
accumulator's URIs and names pairwise distinct. -/
theorem addRadioFavorite_pairwise (acc : List SonosFavorite) (fav : SonosFavorite)
    (h : acc.Pairwise (fun a b => a.URI ≠ b.URI ∧ a.Name ≠ b.Name)) :
    (addRadioFavorite acc fav).Pairwise (fun a b => a.URI ≠ b.URI ∧ a.Name ≠ b.Name) := by
  unfold addRadioFavorite
  by_cases hradio : SonosClient.isRadioStation fav = true
  · rw [if_pos hradio]
    by_cases hdup : acc.any
        (fun existing => existing.URI == fav.URI || existing.Name == fav.Name) = true
    · rw [if_pos hdup]
      exact h
    · rw [if_neg hdup]
      rw [List.pairwise_append]
      refine ⟨h, List.pairwise_singleton _ _, ?_⟩
      have hall : ∀ x ∈ acc, ¬x.URI = fav.URI ∧ ¬x.Name = fav.Name := by
        simpa using hdup
      intro a ha b hb
      rcases List.mem_singleton.mp hb with rfl
      exact hall a ha
  · rw [if_neg hradio]
    exact h

/-- The inner favorites loop preserves the distinctness invariant. -/
theorem foldl_addRadioFavorite_pairwise :
    ∀ (favorites : List SonosFavorite) (acc : List SonosFavorite),
    acc.Pairwise (fun a b => a.URI ≠ b.URI ∧ a.Name ≠ b.Name) →
    (favorites.foldl addRadioFavorite acc).Pairwise
      (fun a b => a.URI ≠ b.URI ∧ a.Name ≠ b.Name)
  | [], _, h => h
  | fav :: rest, acc, h =>
    foldl_addRadioFavorite_pairwise rest (addRadioFavorite acc fav)
      (addRadioFavorite_pairwise acc fav h)

/-- The outer loop over browse roots preserves the distinctness invariant. -/
theorem foldl_roots_pairwise :
    ∀ (favLists : List (List SonosFavorite)) (acc : List SonosFavorite),
    acc.Pairwise (fun a b => a.URI ≠ b.URI ∧ a.Name ≠ b.Name) →
    (favLists.foldl (fun a favorites => favorites.foldl addRadioFavorite a)
        acc).Pairwise (fun a b => a.URI ≠ b.URI ∧ a.Name ≠ b.Name)
  | [], _, h => h
  | favs :: rest, acc, h =>
    foldl_roots_pairwise rest (favs.foldl addRadioFavorite acc)
      (foldl_addRadioFavorite_pairwise favs acc h)

/-- The accumulated favorites of `browseSonosRadioStations` have pairwise
distinct URIs and names. -/
theorem collectRadioFavorites_pairwise (favLists : List (List SonosFavorite)) :
    (collectRadioFavorites favLists).Pairwise
      (fun a b => a.URI ≠ b.URI ∧ a.Name ≠ b.Name) :=
  foldl_roots_pairwise favLists [] List.Pairwise.nil

/-- One step of the inner loop either keeps the accumulator or appends the
new favorite at the end. -/
theorem addRadioFavorite_cases (acc : List SonosFavorite) (fav : SonosFavorite) :
    addRadioFavorite acc fav = acc ∨ addRadioFavorite acc fav = acc ++ [fav] := by
  unfold addRadioFavorite
  by_cases h1 : SonosClient.isRadioStation fav = true
  · rw [if_pos h1]
    by_cases h2 : acc.any
        (fun existing => existing.URI == fav.URI || existing.Name == fav.Name) = true
    · rw [if_pos h2]
      exact Or.inl rfl
    · rw [if_neg h2]
      exact Or.inr rfl
  · rw [if_neg h1]
    exact Or.inl rfl

/-- The inner loop only appends a subsequence of the browsed favorites. -/
theorem foldl_addRadioFavorite_sublist :
    ∀ (favorites : List SonosFavorite) (acc : List SonosFavorite),
    ∃ t, favorites.foldl addRadioFavorite acc = acc ++ t ∧ List.Sublist t favorites
  | [], acc => ⟨[], by simp, List.nil_sublist _⟩
  | fav :: rest, acc => by
    rw [List.foldl_cons]
    rcases addRadioFavorite_cases acc fav with h | h <;> rw [h]
    · obtain ⟨t, ht, hsub⟩ := foldl_addRadioFavorite_sublist rest acc
      exact ⟨t, ht, hsub.trans (List.sublist_cons_self _ _)⟩
    · obtain ⟨t, ht, hsub⟩ := foldl_addRadioFavorite_sublist rest (acc ++ [fav])
      refine ⟨fav :: t, ?_, hsub.cons₂ fav⟩
      rw [ht, List.append_assoc]
      rfl

/-- The accumulated favorites form a subsequence of the concatenated
per-root browse results (first-occurrence order preserved). -/
theorem collectRadioFavorites_sublist :
    ∀ (favLists : List (List SonosFavorite)) (acc : List SonosFavorite),
    ∃ t, favLists.foldl (fun a favorites => favorites.foldl addRadioFavorite a) acc =
        acc ++ t ∧ List.Sublist t favLists.flatten
  | [], acc => ⟨[], by simp, List.nil_sublist _⟩
  | favs :: rest, acc => by
    obtain ⟨t₁, ht₁, hsub₁⟩ := foldl_addRadioFavorite_sublist favs acc
    obtain ⟨t₂, ht₂, hsub₂⟩ := collectRadioFavorites_sublist rest (acc ++ t₁)
    refine ⟨t₁ ++ t₂, ?_, ?_⟩
    · rw [List.foldl_cons, ht₁, ht₂, List.append_assoc]
    · rw [List.flatten_cons]
      exact hsub₁.append hsub₂

/-- Re-numbering keeps the (name, URI) pairs. -/
theorem renumberFrom_map_pair :
    ∀ (l : List SonosFavorite) (n : Nat),
    (renumberFrom n l).map favPair = l.map favPair
  | [], _ => rfl
  | fav :: rest, n => by
    simp only [renumberFrom, List.map_cons, renumberFrom_map_pair rest (n + 1)]
    rfl

/-- Re-numbering keeps the length. -/
theorem renumberFrom_length :
    ∀ (l : List SonosFavorite) (n : Nat), (renumberFrom n l).length = l.length
  | [], _ => rfl
  | _ :: rest, n => by simp [renumberFrom, renumberFrom_length rest (n + 1)]

/-- Re-numbering assigns the ids `n+1, n+2, ...` in order. -/
theorem renumberFrom_map_id :
    ∀ (l : List SonosFavorite) (n : Nat),
    (renumberFrom n l).map (fun f => f.ID) = idIntsFrom n l.length
  | [], _ => rfl
  | fav :: rest, n => by
    simp only [renumberFrom, List.map_cons, List.length_cons, idIntsFrom,
      renumberFrom_map_id rest (n + 1)]

/-- Re-numbering preserves any relation that depends only on name and URI. -/
theorem renumberFrom_pairwise (n : Nat) (l : List SonosFavorite)
    (R : String × String → String × String → Prop)
    (h : l.Pairwise fun a b => R (favPair a) (favPair b)) :
    (renumberFrom n l).Pairwise fun a b => R (favPair a) (favPair b) := by
  have h1 : ((renumberFrom n l).map favPair).Pairwise R := by
    rw [renumberFrom_map_pair]
    exact (List.pairwise_map).mpr h
  exact (List.pairwise_map).mp h1

/-- C4: favorites deduplication.  For the browse pipeline
(`browseSonosRadioStations`, any parse oracle, any network, several roots):
the surviving entries carry ordinal ids exactly `1..N` contiguous and in
order, no two survivors share the same (name, URI) pair, and the survivors'
(name, URI) pairs form a subsequence (first-occurrence order) of the
concatenated per-root browse results.  For the rewrite's
`removeDuplicateFavorites` (any input list): ids are `1..N` contiguous, no
two survivors share a (name, URI) pair, survivors keep first-occurrence
order (pair sublist), and every input entry's dedup key is still
represented by a survivor. -/
theorem favorites_dedup_contiguous (parseFavs : String → List SonosFavorite)
    (net : SoapNet) (l : List SonosFavorite) :
    contiguousIds (SonosClient.browseSonosRadioStations parseFavs net).2 ∧
    (SonosClient.browseSonosRadioStations parseFavs net).2.Pairwise
      (fun a b => ¬(a.Name = b.Name ∧ a.URI = b.URI)) ∧
    List.Sublist ((SonosClient.browseSonosRadioStations parseFavs net).2.map favPair)
      ((((radioObjectIDs.map fun obj =>
          SonosClient.browseForRadioContent parseFavs net obj.1).map
            Prod.snd).flatten).map favPair) ∧
    contiguousIds (SonosClient.removeDuplicateFavorites l) ∧
    (SonosClient.removeDuplicateFavorites l).Pairwise
      (fun a b => ¬(a.Name = b.Name ∧ a.URI = b.URI)) ∧
    List.Sublist ((SonosClient.removeDuplicateFavorites l).map favPair)
      (l.map favPair) ∧
    (∀ fav ∈ l, ∃ g ∈ SonosClient.removeDuplicateFavorites l,
      favKey g = favKey fav) := by
  have hout : (SonosClient.browseSonosRadioStations parseFavs net).2 =
      renumberFrom 0 (collectRadioFavorites
        ((radioObjectIDs.map fun obj =>
          SonosClient.browseForRadioContent parseFavs net obj.1).map Prod.snd)) := rfl
  obtain ⟨sd1, sd2, _, sd4, sd5⟩ :=
    removeDupAux_spec l [] [] (by intro k; simp) rfl List.Pairwise.nil
  refine ⟨?_, ?_, ?_, sd1, ?_, ?_, sd4⟩
  · rw [contiguousIds, hout, renumberFrom_map_id, renumberFrom_length]
  · rw [hout]
    have hS := collectRadioFavorites_pairwise
      ((radioObjectIDs.map fun obj =>
        SonosClient.browseForRadioContent parseFavs net obj.1).map Prod.snd)
    have hW : (collectRadioFavorites
        ((radioObjectIDs.map fun obj =>
          SonosClient.browseForRadioContent parseFavs net obj.1).map
            Prod.snd)).Pairwise
        (fun a b => ¬(a.Name = b.Name ∧ a.URI = b.URI)) :=
      hS.imp fun hab hcon => hab.1 hcon.2
    exact renumberFrom_pairwise 0 _ (fun p q => ¬(p.1 = q.1 ∧ p.2 = q.2)) hW
  · rw [hout, renumberFrom_map_pair]
    obtain ⟨t, ht, hsub⟩ := collectRadioFavorites_sublist
      ((radioObjectIDs.map fun obj =>
        SonosClient.browseForRadioContent parseFavs net obj.1).map Prod.snd) []
    rw [collectRadioFavorites, ht, List.nil_append]
    exact hsub.map favPair
  · exact sd2.imp fun hab hcon => hab (by rw [favKey, favKey, hcon.1, hcon.2])
  · simpa using sd5

/-- C4 witness: two identical "Jazz FM" entries collapse to one and the
survivors are re-numbered 1, 2. -/
theorem favorites_dedup_contiguous_witness :
    SonosClient.removeDuplicateFavorites
        [⟨1, "Jazz FM", "http://stream.example/radio", ""⟩,
         ⟨2, "Jazz FM", "http://stream.example/radio", ""⟩,
         ⟨3, "News", "http://news.example/live", ""⟩] =
      [⟨1, "Jazz FM", "http://stream.example/radio", ""⟩,
       ⟨2, "News", "http://news.example/live", ""⟩] ∧
    contiguousIds (SonosClient.removeDuplicateFavorites
      [⟨1, "Jazz FM", "http://stream.example/radio", ""⟩,
       ⟨2, "Jazz FM", "http://stream.example/radio", ""⟩,
       ⟨3, "News", "http://news.example/live", ""⟩]) :=
  ⟨by decide,
    (favorites_dedup_contiguous (fun _ => []) (fun _ => none)
      [⟨1, "Jazz FM", "http://stream.example/radio", ""⟩,
       ⟨2, "Jazz FM", "http://stream.example/radio", ""⟩,
       ⟨3, "News", "http://news.example/live", ""⟩]).2.2.2.1⟩

/-- Browse fixture for the C4 counterexample: one root yields the pair
("Jazz", "http://b") twice, behind an entry sharing only the name. -/
def dupPairFavs : List SonosFavorite :=
  [⟨1, "Jazz", "http://a", ""⟩, ⟨2, "Jazz", "http://b", ""⟩,
   ⟨3, "Jazz", "http://b", ""⟩]

/-- Parse oracle serving `dupPairFavs` for the first browse root only. -/
def dupPairParse : String → List SonosFavorite := fun s =>
  if goContainsB s ">R:0/0<" then dupPairFavs else []

/-- Oracle echoing each request body back with status 200. -/
def echoNet : SoapNet := fun req => some (200, req.body)

set_option maxRecDepth 16384 in
/-- C4 counterexample: in the part_000 browse pipeline the duplicated
(name, URI) pair ("Jazz", "http://b") — present twice in the browsed
favorites — collapses to ZERO surviving entries, not to a single one: both
copies are discarded by the URI-or-name duplicate guard because an earlier
survivor ("Jazz", "http://a") already carries the same name.  The whole
output is that earlier entry alone. -/
theorem browse_identical_pair_collapses_to_zero :
    (((radioObjectIDs.map fun obj =>
        SonosClient.browseForRadioContent dupPairParse echoNet obj.1).map
          Prod.snd).flatten.map favPair).count ("Jazz", "http://b") = 2 ∧
    (((SonosClient.browseSonosRadioStations dupPairParse echoNet).2).map
        favPair).count ("Jazz", "http://b") = 0 ∧
    (SonosClient.browseSonosRadioStations dupPairParse echoNet).2 =
      [⟨1, "Jazz", "http://a", ""⟩] := by
  decide
